import Mathlib

/-!
Shallow embedding of the instruction decoder in
`src/kernel/src/cpu/insn.rs` of the svsm repository.

Bytes (`u8`) are modelled as `Nat`; no arithmetic is performed on them by
the decoder, only equality comparisons, so no wrap-around modelling is
needed.  The fallible, bounds-checked array indexing of `InsnBuffer` is
modelled by an `Option`-returning accessor: `none` represents the Rust
panic on an out-of-bounds index.  `decode` is threaded through that
accessor, so `decode` returning `none` would represent a panic / an
out-of-bounds read, and `decode` returning `some r` proves every read was
in bounds.
-/

/-- An immediate value in an instruction (`enum Immediate`).  The payloads
are `u8`/`u16`/`u32` literals, modelled as `Nat`. -/
inductive Immediate where
  | U8 (v : Nat)
  | U16 (v : Nat)
  | U32 (v : Nat)
deriving DecidableEq, Repr

/-- A register in an instruction (`enum Register`).  The source enumeration
lists exactly these fourteen variants. -/
inductive Register where
  | Rax
  | Rbx
  | Rcx
  | Rdx
  | Rsp
  | Rbp
  | R8
  | R9
  | R10
  | R11
  | R12
  | R13
  | R14
  | R15
deriving DecidableEq, Repr, Fintype

/-- An operand in an instruction, which might be a register or an
immediate (`enum Operand`). -/
inductive Operand where
  | Reg (r : Register)
  | Imm (i : Immediate)
deriving DecidableEq, Repr

/-- `Operand::rdx()`: the data-register operand. -/
def Operand.rdx : Operand := Operand.Reg Register.Rdx

/-- `enum DecodedInsn`: the instructions the decoder can produce. -/
inductive DecodedInsn where
  | Cpuid
  | Inl (op : Operand)
  | Inb (op : Operand)
  | Inw (op : Operand)
  | Outl (op : Operand)
  | Outb (op : Operand)
  | Outw (op : Operand)
deriving DecidableEq, Repr

/-- `DecodedInsn::size()`: the encoded length in bytes of each variant. -/
def DecodedInsn.size : DecodedInsn → Nat
  | .Cpuid => 2
  | .Inb _ => 1
  | .Inw _ => 2
  | .Inl _ => 1
  | .Outb _ => 1
  | .Outw _ => 2
  | .Outl _ => 1

/-- `MAX_INSN_SIZE`: the x86 architectural maximum instruction length. -/
abbrev MAX_INSN_SIZE : Nat := 15

/-- `MAX_INSN_FIELD_SIZE`. -/
abbrev MAX_INSN_FIELD_SIZE : Nat := 3

/-- Modelled from the spec: the "decode failed" classification tag.  The
`VcErrorType` declaration lives in `src/kernel/src/cpu/vc.rs`, which is not
among the provided sources; the spec describes a single classification
relevant to this core, DecodeFailed. -/
inductive VcErrorType where
  | DecodeFailed
deriving DecidableEq, Repr

/-- Modelled from the spec: the error value built by `decode` on failure.
The `VcError` declaration lives in `src/kernel/src/cpu/vc.rs`, which is not
among the provided sources; per the spec it carries a fault address
(`rip`), a fault error code (`code`) and a classification tag, and the
decoder leaves the first two as zero placeholders. -/
structure VcError where
  rip : Nat
  code : Nat
  error_type : VcErrorType
deriving DecidableEq, Repr

/-- Modelled from the spec: the crate-wide error type through which the
decoder reports failure (`SvsmError`, declared in `src/kernel/src/error.rs`,
not among the provided sources).  `VcError.into()` wraps a `VcError` into
its `Vc` variant. -/
inductive SvsmError where
  | Vc (e : VcError)
deriving DecidableEq, Repr

/-- `struct InsnBuffer<const N: usize>`: a backing array of exactly `N`
bytes plus the count of meaningful leading bytes. -/
structure InsnBuffer (N : Nat) where
  buf : Fin N → Nat
  nb_bytes : Nat

/-- `InsnBuffer::new`. -/
def InsnBuffer.new {N : Nat} (buf : Fin N → Nat) (nb_bytes : Nat) :
    InsnBuffer N :=
  { buf := buf, nb_bytes := nb_bytes }

/-- `InsnBuffer::default()`: all-zero array, zero used length. -/
def InsnBuffer.defaultValue {N : Nat} : InsnBuffer N :=
  { buf := fun _ => 0, nb_bytes := 0 }

/-- The `Index` impl for `InsnBuffer`: `self.buf[i]`, bounds-checked
against the capacity `N`.  `none` models the Rust panic on an
out-of-bounds index. -/
def InsnBuffer.index {N : Nat} (b : InsnBuffer N) (i : Nat) : Option Nat :=
  if h : i < N then some (b.buf ⟨i, h⟩) else none

/-- `struct Instruction`: a view of an x86 instruction. -/
structure Instruction where
  prefixes : Option (InsnBuffer MAX_INSN_FIELD_SIZE)
  insn_bytes : InsnBuffer MAX_INSN_SIZE
  opcode : InsnBuffer MAX_INSN_FIELD_SIZE
  opnd_bytes : Nat

/-- `Instruction::new`. -/
def Instruction.new (insn_bytes : Fin MAX_INSN_SIZE → Nat) : Instruction :=
  { prefixes := none
    opcode := InsnBuffer.defaultValue
    insn_bytes := InsnBuffer.new insn_bytes 0
    opnd_bytes := 4 }

/-- `Instruction::len()`: the raw buffer's used length. -/
def Instruction.len (insn : Instruction) : Nat :=
  insn.insn_bytes.nb_bytes

/-- `Instruction::is_empty()`. -/
def Instruction.is_empty (insn : Instruction) : Bool :=
  insn.insn_bytes.nb_bytes == 0

/-- `Instruction::decode()`: match on `insn_bytes[0]` (and, for the `0x66`
and `0x0F` prefixes, on `insn_bytes[1]`); any unmatched pattern falls
through to the `VcError` with zeroed `rip`/`code` and the `DecodeFailed`
classification.  The outer `Option` models panics of the bounds-checked
indexing: `none` would mean an out-of-bounds read. -/
def Instruction.decode (insn : Instruction) :
    Option (Except SvsmError DecodedInsn) :=
  match insn.insn_bytes.index 0 with
  | none => none
  | some b0 =>
    if b0 = 0xEC then some (Except.ok (DecodedInsn.Inb Operand.rdx))
    else if b0 = 0xED then some (Except.ok (DecodedInsn.Inl Operand.rdx))
    else if b0 = 0xEE then some (Except.ok (DecodedInsn.Outb Operand.rdx))
    else if b0 = 0xEF then some (Except.ok (DecodedInsn.Outl Operand.rdx))
    else if b0 = 0x66 then
      match insn.insn_bytes.index 1 with
      | none => none
      | some b1 =>
        if b1 = 0xED then some (Except.ok (DecodedInsn.Inw Operand.rdx))
        else if b1 = 0xEF then some (Except.ok (DecodedInsn.Outw Operand.rdx))
        else some (Except.error (SvsmError.Vc
          { rip := 0, code := 0, error_type := VcErrorType.DecodeFailed }))
    else if b0 = 0x0F then
      match insn.insn_bytes.index 1 with
      | none => none
      | some b1 =>
        if b1 = 0xA2 then some (Except.ok DecodedInsn.Cpuid)
        else some (Except.error (SvsmError.Vc
          { rip := 0, code := 0, error_type := VcErrorType.DecodeFailed }))
    else some (Except.error (SvsmError.Vc
      { rip := 0, code := 0, error_type := VcErrorType.DecodeFailed }))

/-- The method call `self.decode()` with its receiver state made explicit:
`decode` takes `&self` (a shared borrow) and assigns no field in its body,
so the receiver after the call is the receiver before it. -/
def Instruction.decodeCall (insn : Instruction) :
    Option (Except SvsmError DecodedInsn) × Instruction :=
  (insn.decode, insn)

/-- The error value `decode` builds on failure: zeroed `rip` and `code`,
`DecodeFailed` classification. -/
def decodeFailedError : SvsmError :=
  SvsmError.Vc { rip := 0, code := 0, error_type := VcErrorType.DecodeFailed }

/-- Proof-layer restatement of the decode match on the first two raw
bytes, used to reason about `Instruction.decode` uniformly. -/
def decodeFirstTwo (b0 b1 : Nat) : Except SvsmError DecodedInsn :=
  if b0 = 0xEC then Except.ok (DecodedInsn.Inb Operand.rdx)
  else if b0 = 0xED then Except.ok (DecodedInsn.Inl Operand.rdx)
  else if b0 = 0xEE then Except.ok (DecodedInsn.Outb Operand.rdx)
  else if b0 = 0xEF then Except.ok (DecodedInsn.Outl Operand.rdx)
  else if b0 = 0x66 then
    if b1 = 0xED then Except.ok (DecodedInsn.Inw Operand.rdx)
    else if b1 = 0xEF then Except.ok (DecodedInsn.Outw Operand.rdx)
    else Except.error decodeFailedError
  else if b0 = 0x0F then
    if b1 = 0xA2 then Except.ok DecodedInsn.Cpuid
    else Except.error decodeFailedError
  else Except.error decodeFailedError

/-- A 15-byte buffer whose leading bytes come from `l` and whose trailing
bytes are the `0x41` padding used by the repository's tests. -/
def padBuf (l : List Nat) : Fin MAX_INSN_SIZE → Nat :=
  fun i => l.getD i.val 0x41

/-- A 15-byte buffer whose leading bytes come from `l` and whose trailing
bytes are zero. -/
def padBufZero (l : List Nat) : Fin MAX_INSN_SIZE → Nat :=
  fun i => l.getD i.val 0x00

lemma InsnBuffer.index_zero (b : InsnBuffer MAX_INSN_SIZE) :
    b.index 0 = some (b.buf 0) := rfl

lemma InsnBuffer.index_one (b : InsnBuffer MAX_INSN_SIZE) :
    b.index 1 = some (b.buf 1) := rfl

lemma Instruction.decode_eq (insn : Instruction) :
    insn.decode =
      some (decodeFirstTwo (insn.insn_bytes.buf 0) (insn.insn_bytes.buf 1)) := by
  unfold Instruction.decode decodeFirstTwo
  simp only [InsnBuffer.index_zero, InsnBuffer.index_one, decodeFailedError]
  split_ifs <;> rfl

lemma decodeFirstTwo_error_iff (b0 b1 : Nat) :
    decodeFirstTwo b0 b1 = Except.error decodeFailedError ↔
      ((b0 ≠ 0xEC ∧ b0 ≠ 0xED ∧ b0 ≠ 0xEE ∧ b0 ≠ 0xEF ∧
        b0 ≠ 0x66 ∧ b0 ≠ 0x0F) ∨
       (b0 = 0x66 ∧ b1 ≠ 0xED ∧ b1 ≠ 0xEF) ∨
       (b0 = 0x0F ∧ b1 ≠ 0xA2)) := by
  unfold decodeFirstTwo
  split_ifs with h1 h2 h3 h4 h5 h6 h7 h8 h9 <;> simp_all

lemma decodeFirstTwo_ok_iff (b0 b1 : Nat) :
    (∃ d, decodeFirstTwo b0 b1 = Except.ok d) ↔
      (b0 = 0xEC ∨ b0 = 0xED ∨ b0 = 0xEE ∨ b0 = 0xEF ∨
       (b0 = 0x66 ∧ (b1 = 0xED ∨ b1 = 0xEF)) ∨
       (b0 = 0x0F ∧ b1 = 0xA2)) := by
  unfold decodeFirstTwo
  split_ifs with h1 h2 h3 h4 h5 h6 h7 h8 h9 <;> simp_all

lemma decodeFirstTwo_error_unique (b0 b1 : Nat) (e : SvsmError)
    (h : decodeFirstTwo b0 b1 = Except.error e) : e = decodeFailedError := by
  unfold decodeFirstTwo at h
  split_ifs at h <;> simp_all

lemma decodeFirstTwo_ok_shape (b0 b1 : Nat) (d : DecodedInsn)
    (h : decodeFirstTwo b0 b1 = Except.ok d) :
    d = DecodedInsn.Cpuid ∨
    d = DecodedInsn.Inb (Operand.Reg Register.Rdx) ∨
    d = DecodedInsn.Inw (Operand.Reg Register.Rdx) ∨
    d = DecodedInsn.Inl (Operand.Reg Register.Rdx) ∨
    d = DecodedInsn.Outb (Operand.Reg Register.Rdx) ∨
    d = DecodedInsn.Outw (Operand.Reg Register.Rdx) ∨
    d = DecodedInsn.Outl (Operand.Reg Register.Rdx) := by
  unfold decodeFirstTwo at h
  split_ifs at h <;> simp_all [Operand.rdx]

/-- C1: for each of the seven supported byte patterns (`0xEC`, `0xED`,
`0xEE`, `0xEF` as byte 0; `0x66` followed by `0xED` or `0xEF`; `0x0F`
followed by `0xA2`), `decode` on any 15-byte buffer beginning with that
pattern (remaining bytes arbitrary) returns the corresponding
`DecodedInsn` variant (`Inb`, `Inl`, `Outb`, `Outl`, `Inw`, `Outw`,
`Cpuid` respectively), and that variant's `size` equals the table value:
`Cpuid` 2, `Inb` 1, `Inw` 2, `Inl` 1, `Outb` 1, `Outw` 2, `Outl` 1. -/
theorem decode_supported_patterns (insn : Instruction) :
    (insn.insn_bytes.buf 0 = 0xEC →
      insn.decode = some (Except.ok (DecodedInsn.Inb Operand.rdx)) ∧
      (DecodedInsn.Inb Operand.rdx).size = 1) ∧
    (insn.insn_bytes.buf 0 = 0xED →
      insn.decode = some (Except.ok (DecodedInsn.Inl Operand.rdx)) ∧
      (DecodedInsn.Inl Operand.rdx).size = 1) ∧
    (insn.insn_bytes.buf 0 = 0xEE →
      insn.decode = some (Except.ok (DecodedInsn.Outb Operand.rdx)) ∧
      (DecodedInsn.Outb Operand.rdx).size = 1) ∧
    (insn.insn_bytes.buf 0 = 0xEF →
      insn.decode = some (Except.ok (DecodedInsn.Outl Operand.rdx)) ∧
      (DecodedInsn.Outl Operand.rdx).size = 1) ∧
    (insn.insn_bytes.buf 0 = 0x66 → insn.insn_bytes.buf 1 = 0xED →
      insn.decode = some (Except.ok (DecodedInsn.Inw Operand.rdx)) ∧
      (DecodedInsn.Inw Operand.rdx).size = 2) ∧
    (insn.insn_bytes.buf 0 = 0x66 → insn.insn_bytes.buf 1 = 0xEF →
      insn.decode = some (Except.ok (DecodedInsn.Outw Operand.rdx)) ∧
      (DecodedInsn.Outw Operand.rdx).size = 2) ∧
    (insn.insn_bytes.buf 0 = 0x0F → insn.insn_bytes.buf 1 = 0xA2 →
      insn.decode = some (Except.ok DecodedInsn.Cpuid) ∧
      DecodedInsn.Cpuid.size = 2) := by
  rw [Instruction.decode_eq]
  refine ⟨fun h0 => ?_, fun h0 => ?_, fun h0 => ?_, fun h0 => ?_,
    fun h0 h1 => ?_, fun h0 h1 => ?_, fun h0 h1 => ?_⟩ <;>
  simp_all [decodeFirstTwo, DecodedInsn.size]

/-- Witness for C1: the seven patterns instantiated on concrete buffers
padded with `0x41`. -/
theorem decode_supported_patterns_witness :
    ((Instruction.new (padBuf [0xEC])).decode =
        some (Except.ok (DecodedInsn.Inb Operand.rdx)) ∧
      (DecodedInsn.Inb Operand.rdx).size = 1) ∧
    ((Instruction.new (padBuf [0xED])).decode =
        some (Except.ok (DecodedInsn.Inl Operand.rdx)) ∧
      (DecodedInsn.Inl Operand.rdx).size = 1) ∧
    ((Instruction.new (padBuf [0xEE])).decode =
        some (Except.ok (DecodedInsn.Outb Operand.rdx)) ∧
      (DecodedInsn.Outb Operand.rdx).size = 1) ∧
    ((Instruction.new (padBuf [0xEF])).decode =
        some (Except.ok (DecodedInsn.Outl Operand.rdx)) ∧
      (DecodedInsn.Outl Operand.rdx).size = 1) ∧
    ((Instruction.new (padBuf [0x66, 0xED])).decode =
        some (Except.ok (DecodedInsn.Inw Operand.rdx)) ∧
      (DecodedInsn.Inw Operand.rdx).size = 2) ∧
    ((Instruction.new (padBuf [0x66, 0xEF])).decode =
        some (Except.ok (DecodedInsn.Outw Operand.rdx)) ∧
      (DecodedInsn.Outw Operand.rdx).size = 2) ∧
    ((Instruction.new (padBuf [0x0F, 0xA2])).decode =
        some (Except.ok DecodedInsn.Cpuid) ∧
      DecodedInsn.Cpuid.size = 2) :=
  ⟨(decode_supported_patterns (Instruction.new (padBuf [0xEC]))).1 rfl,
   (decode_supported_patterns (Instruction.new (padBuf [0xED]))).2.1 rfl,
   (decode_supported_patterns (Instruction.new (padBuf [0xEE]))).2.2.1 rfl,
   (decode_supported_patterns (Instruction.new (padBuf [0xEF]))).2.2.2.1 rfl,
   (decode_supported_patterns
     (Instruction.new (padBuf [0x66, 0xED]))).2.2.2.2.1 rfl rfl,
   (decode_supported_patterns
     (Instruction.new (padBuf [0x66, 0xEF]))).2.2.2.2.2.1 rfl rfl,
   (decode_supported_patterns
     (Instruction.new (padBuf [0x0F, 0xA2]))).2.2.2.2.2.2 rfl rfl⟩

/-- C2: `decode` returns the DecodeFailed error exactly when the leading
bytes match none of the seven supported encodings (byte 0 outside
`{0xEC, 0xED, 0xEE, 0xEF, 0x66, 0x0F}`; byte 0 `0x66` with byte 1 outside
`{0xED, 0xEF}`; byte 0 `0x0F` with byte 1 not `0xA2`); in every other
case it succeeds (the second conjunct shows decoding always either fails
with that error or succeeds, so outside the failure condition it
succeeds). -/
theorem decode_error_iff_unsupported (insn : Instruction) :
    (insn.decode = some (Except.error decodeFailedError) ↔
      ((insn.insn_bytes.buf 0 ≠ 0xEC ∧ insn.insn_bytes.buf 0 ≠ 0xED ∧
        insn.insn_bytes.buf 0 ≠ 0xEE ∧ insn.insn_bytes.buf 0 ≠ 0xEF ∧
        insn.insn_bytes.buf 0 ≠ 0x66 ∧ insn.insn_bytes.buf 0 ≠ 0x0F) ∨
       (insn.insn_bytes.buf 0 = 0x66 ∧ insn.insn_bytes.buf 1 ≠ 0xED ∧
        insn.insn_bytes.buf 1 ≠ 0xEF) ∨
       (insn.insn_bytes.buf 0 = 0x0F ∧ insn.insn_bytes.buf 1 ≠ 0xA2))) ∧
    (insn.decode = some (Except.error decodeFailedError) ∨
      ∃ d, insn.decode = some (Except.ok d)) := by
  rw [Instruction.decode_eq]
  constructor
  · rw [Option.some_inj]
    exact decodeFirstTwo_error_iff _ _
  · cases h : decodeFirstTwo (insn.insn_bytes.buf 0) (insn.insn_bytes.buf 1)
      with
    | error e =>
      exact Or.inl (by rw [decodeFirstTwo_error_unique _ _ e h])
    | ok d => exact Or.inr ⟨d, rfl⟩

/-- C3: `decode` is a pure function of the raw buffer's first two bytes:
for every two `Instruction` views whose raw buffers agree at positions 0
and 1, `decode` returns identical results, however the trailing bytes
(positions 2 through 14) and all other fields differ. -/
theorem decode_depends_only_on_first_two_bytes (a b : Instruction)
    (h0 : a.insn_bytes.buf 0 = b.insn_bytes.buf 0)
    (h1 : a.insn_bytes.buf 1 = b.insn_bytes.buf 1) :
    a.decode = b.decode := by
  rw [Instruction.decode_eq, Instruction.decode_eq, h0, h1]

/-- Witness for C3: two buffers starting `0x66 0xED` that differ in every
trailing byte (`0x41` padding against zero padding) decode identically. -/
theorem decode_depends_only_on_first_two_bytes_witness :
    (Instruction.new (padBuf [0x66, 0xED])).decode =
      (Instruction.new (padBufZero [0x66, 0xED])).decode :=
  decode_depends_only_on_first_two_bytes
    (Instruction.new (padBuf [0x66, 0xED]))
    (Instruction.new (padBufZero [0x66, 0xED])) rfl rfl

/-- C4: `decode` is total on every 15-byte buffer: it never panics and
never indexes outside the raw buffer's backing array (in this model an
out-of-bounds read or panic would surface as `none`, and `decode` always
returns `some`), and on the all-zero buffer it returns the DecodeFailed
error rather than failing in any other way. -/
theorem decode_total_and_all_zero_fails :
    (∀ insn : Instruction, ∃ r, insn.decode = some r) ∧
    (Instruction.new fun _ => 0x00).decode =
      some (Except.error decodeFailedError) := by
  constructor
  · intro insn
    exact ⟨_, Instruction.decode_eq insn⟩
  · rfl

/-- C5: `decode` has no side effects on the `Instruction` view — after the
call, `prefixes`, `insn_bytes`, `opcode` and `opnd_bytes` are unchanged —
and re-invoking `decode` on the resulting view yields the same result
(idempotent). -/
theorem decode_no_side_effects_and_idempotent (insn : Instruction) :
    (insn.decodeCall.2.prefixes = insn.prefixes ∧
     insn.decodeCall.2.insn_bytes = insn.insn_bytes ∧
     insn.decodeCall.2.opcode = insn.opcode ∧
     insn.decodeCall.2.opnd_bytes = insn.opnd_bytes) ∧
    insn.decodeCall.2.decodeCall.1 = insn.decodeCall.1 :=
  ⟨⟨rfl, rfl, rfl, rfl⟩, rfl⟩

/-- C6: whenever `decode` succeeds, the returned instruction's `size` is
at least 1 and never exceeds the architectural maximum of 15 bytes. -/
theorem decode_size_bounds (insn : Instruction) (d : DecodedInsn)
    (h : insn.decode = some (Except.ok d)) :
    1 ≤ d.size ∧ d.size ≤ MAX_INSN_SIZE := by
  cases d <;> simp [DecodedInsn.size, MAX_INSN_SIZE]

/-- Witness for C6: the bounds instantiated on the decode of an `0xEC`
buffer. -/
theorem decode_size_bounds_witness :
    1 ≤ (DecodedInsn.Inb Operand.rdx).size ∧
      (DecodedInsn.Inb Operand.rdx).size ≤ MAX_INSN_SIZE :=
  decode_size_bounds (Instruction.new (padBuf [0xEC]))
    (DecodedInsn.Inb Operand.rdx) rfl

/-- C7: whenever `decode` fails, the error it returns is the `Vc` error
with fault address (`rip`) 0, fault error code (`code`) 0 and the
`DecodeFailed` classification; this is the only error `decode` ever
produces. -/
theorem decode_error_is_zeroed_decode_failed (insn : Instruction)
    (e : SvsmError) (h : insn.decode = some (Except.error e)) :
    e = SvsmError.Vc
      { rip := 0, code := 0, error_type := VcErrorType.DecodeFailed } := by
  rw [Instruction.decode_eq] at h
  exact decodeFirstTwo_error_unique _ _ e (Option.some.inj h)

/-- Witness for C7: instantiated on the all-`0x41` buffer, which fails to
decode. -/
theorem decode_error_is_zeroed_decode_failed_witness :
    decodeFailedError = SvsmError.Vc
      { rip := 0, code := 0, error_type := VcErrorType.DecodeFailed } :=
  decode_error_is_zeroed_decode_failed (Instruction.new (padBuf []))
    decodeFailedError rfl

/-- C8: every `DecodedInsn` produced by `decode` is either `Cpuid` or a
port-I/O variant carrying exactly the data-register operand
`Operand.Reg Register.Rdx`; `decode` never produces an `Immediate`
operand or any other register. -/
theorem decode_operand_is_rdx (insn : Instruction) (d : DecodedInsn)
    (h : insn.decode = some (Except.ok d)) :
    d = DecodedInsn.Cpuid ∨
    d = DecodedInsn.Inb (Operand.Reg Register.Rdx) ∨
    d = DecodedInsn.Inw (Operand.Reg Register.Rdx) ∨
    d = DecodedInsn.Inl (Operand.Reg Register.Rdx) ∨
    d = DecodedInsn.Outb (Operand.Reg Register.Rdx) ∨
    d = DecodedInsn.Outw (Operand.Reg Register.Rdx) ∨
    d = DecodedInsn.Outl (Operand.Reg Register.Rdx) := by
  rw [Instruction.decode_eq] at h
  exact decodeFirstTwo_ok_shape _ _ d (Option.some.inj h)

/-- Witness for C8: instantiated on the decode of an `0xEE` buffer, which
yields `Outb` with the data-register operand. -/
theorem decode_operand_is_rdx_witness :
    DecodedInsn.Outb (Operand.Reg Register.Rdx) = DecodedInsn.Cpuid ∨
    DecodedInsn.Outb (Operand.Reg Register.Rdx) =
      DecodedInsn.Inb (Operand.Reg Register.Rdx) ∨
    DecodedInsn.Outb (Operand.Reg Register.Rdx) =
      DecodedInsn.Inw (Operand.Reg Register.Rdx) ∨
    DecodedInsn.Outb (Operand.Reg Register.Rdx) =
      DecodedInsn.Inl (Operand.Reg Register.Rdx) ∨
    DecodedInsn.Outb (Operand.Reg Register.Rdx) =
      DecodedInsn.Outb (Operand.Reg Register.Rdx) ∨
    DecodedInsn.Outb (Operand.Reg Register.Rdx) =
      DecodedInsn.Outw (Operand.Reg Register.Rdx) ∨
    DecodedInsn.Outb (Operand.Reg Register.Rdx) =
      DecodedInsn.Outl (Operand.Reg Register.Rdx) :=
  decode_operand_is_rdx (Instruction.new (padBuf [0xEE]))
    (DecodedInsn.Outb (Operand.Reg Register.Rdx)) rfl

/-- C9 counterexample: the `Register` enumeration does not have 16
variants. -/
theorem register_not_sixteen_variants : Fintype.card Register ≠ 16 := by
  decide

/-- C9 amended: `Register` is a closed enumeration of exactly 14
general-purpose integer register names (accumulator, base, count, data,
stack pointer, frame pointer, and extended registers 8 through 15; the
source and destination index registers are absent), i.e. it has 14
variants. -/
theorem register_fourteen_variants : Fintype.card Register = 14 := by
  decide

/-- C10: for every 15-byte buffer `b`, the view `Instruction.new b` has
`len` 0 and `is_empty` true (with `prefixes` none and `opnd_bytes` 4),
yet `decode` on that view still succeeds exactly according to the
byte-pattern rules applied to `b`, and `len` is still 0 after the decode
call. -/
theorem new_view_empty_yet_decodes (b : Fin MAX_INSN_SIZE → Nat) :
    (Instruction.new b).len = 0 ∧
    (Instruction.new b).is_empty = true ∧
    (Instruction.new b).prefixes = none ∧
    (Instruction.new b).opnd_bytes = 4 ∧
    ((∃ d, (Instruction.new b).decode = some (Except.ok d)) ↔
      (b 0 = 0xEC ∨ b 0 = 0xED ∨ b 0 = 0xEE ∨ b 0 = 0xEF ∨
       (b 0 = 0x66 ∧ (b 1 = 0xED ∨ b 1 = 0xEF)) ∨
       (b 0 = 0x0F ∧ b 1 = 0xA2))) ∧
    (Instruction.new b).decodeCall.2.len = 0 := by
  refine ⟨rfl, rfl, rfl, rfl, ?_, rfl⟩
  rw [Instruction.decode_eq]
  simp only [Option.some.injEq]
  exact decodeFirstTwo_ok_iff (b 0) (b 1)
